import Mathlib

/-!
Verification of the playback/timeline engine of the input-log-viewer
repository against its natural-language specification.

Shallow embedding conventions:
* Rust `u64` values are modelled as `Nat`.  `saturating_sub` is Lean's
  truncated `Nat` subtraction; no reachable computation here wraps at
  `2^64`, so plain `Nat` addition models `+`/`saturating_add` faithfully
  on the inputs the claims quantify over.
* Rust `f32`/`f64` values are modelled as `ℚ` with exact arithmetic.
  The Rust float-to-integer cast `as u64` truncates toward zero and
  saturates below at 0; on `ℚ` this is `(⌊q⌋).toNat` (for `q < 0` both
  yield 0, for `q ≥ 0` truncation equals the floor).
* `std::time::Instant` is an abstract timestamp, modelled as a `Nat`
  supplied by the caller (`now`); operations that read the clock take it
  as an explicit argument.
-/

/-! ## Core playback model (src/core/playback.rs) -/

/-- `DEFAULT_SPEED` from playback.rs. -/
def DEFAULT_SPEED : ℚ := 1

/-- `MIN_SPEED` from playback.rs. -/
def MIN_SPEED : ℚ := 0.1

/-- `MAX_SPEED` from playback.rs. -/
def MAX_SPEED : ℚ := 10

/-- `SPEED_OPTIONS` from playback.rs (`[0.25, 0.5, 1.0, 2.0, 4.0]`). -/
def SPEED_OPTIONS : List ℚ := [0.25, 0.5, 1, 2, 4]

/-- `PlaybackState` from playback.rs.  `last_update` is the abstract
timestamp of the last accepted frame advance. -/
structure PlaybackState where
  current_frame : Nat
  speed : ℚ
  loop_enabled : Bool
  range_start : Option Nat
  range_end : Option Nat
  last_update : Nat
deriving DecidableEq, Repr

namespace PlaybackState

/-- `PlaybackState::new`, with `Instant::now()` passed in as `now`. -/
def new (now : Nat) : PlaybackState :=
  { current_frame := 0
    speed := DEFAULT_SPEED
    loop_enabled := true
    range_start := none
    range_end := none
    last_update := now }

/-- `PlaybackState::mark_advanced`, with `Instant::now()` passed in. -/
def mark_advanced (s : PlaybackState) (now : Nat) : PlaybackState :=
  { s with last_update := now }

/-- `PlaybackState::effective_start`: `self.range_start.unwrap_or(0)`. -/
def effective_start (s : PlaybackState) : Nat :=
  s.range_start.getD 0

/-- `PlaybackState::effective_end`:
`self.range_end.map(|end| end.min(total_frames.saturating_sub(1))).unwrap_or(total_frames.saturating_sub(1))`. -/
def effective_end (s : PlaybackState) (total_frames : Nat) : Nat :=
  (s.range_end.map (fun e => min e (total_frames - 1))).getD (total_frames - 1)

/-- `PlaybackState::set_frame`: clamp to `[0, total_frames-1]`
(`frame.min(total_frames.saturating_sub(1))`). -/
def set_frame (s : PlaybackState) (frame total_frames : Nat) : PlaybackState :=
  { s with current_frame := min frame (total_frames - 1) }

/-- `PlaybackState::advance`, returning the updated state and the
continue flag.  `now` stands for `Instant::now()` inside `mark_advanced`. -/
def advance (s : PlaybackState) (total_frames now : Nat) : PlaybackState × Bool :=
  let end_frame := s.effective_end total_frames
  if s.current_frame ≥ end_frame then
    if s.loop_enabled then
      (({ s with current_frame := s.effective_start }).mark_advanced now, true)
    else
      (s, false)
  else
    (({ s with current_frame := s.current_frame + 1 }).mark_advanced now, true)

/-- `PlaybackState::previous`. -/
def previous (s : PlaybackState) (total_frames : Nat) : PlaybackState :=
  let start_frame := s.effective_start
  if s.current_frame ≤ start_frame then
    if s.loop_enabled then
      { s with current_frame := s.effective_end total_frames }
    else
      s
  else
    { s with current_frame := s.current_frame - 1 }

/-- `PlaybackState::go_to_start`. -/
def go_to_start (s : PlaybackState) : PlaybackState :=
  { s with current_frame := s.effective_start }

/-- `PlaybackState::go_to_end`. -/
def go_to_end (s : PlaybackState) (total_frames : Nat) : PlaybackState :=
  { s with current_frame := s.effective_end total_frames }

/-- `PlaybackState::set_speed`: `speed.clamp(MIN_SPEED, MAX_SPEED)`. -/
def set_speed (s : PlaybackState) (speed : ℚ) : PlaybackState :=
  { s with speed := min (max speed MIN_SPEED) MAX_SPEED }

/-- `PlaybackState::next_speed_preset`: first preset strictly above the
current speed, else `*SPEED_OPTIONS.last().unwrap_or(&DEFAULT_SPEED)`. -/
def next_speed_preset (s : PlaybackState) : ℚ :=
  match SPEED_OPTIONS.find? (fun preset => preset > s.speed) with
  | some preset => preset
  | none => SPEED_OPTIONS.getLast?.getD DEFAULT_SPEED

/-- `PlaybackState::prev_speed_preset`: first preset (scanning the list
in reverse) strictly below the current speed, else
`*SPEED_OPTIONS.first().unwrap_or(&DEFAULT_SPEED)`. -/
def prev_speed_preset (s : PlaybackState) : ℚ :=
  match SPEED_OPTIONS.reverse.find? (fun preset => preset < s.speed) with
  | some preset => preset
  | none => SPEED_OPTIONS.head?.getD DEFAULT_SPEED

/-- `PlaybackState::set_range`. -/
def set_range (s : PlaybackState) (start stop : Option Nat) : PlaybackState :=
  { s with range_start := start, range_end := stop }

/-- `PlaybackState::clear_range`. -/
def clear_range (s : PlaybackState) : PlaybackState :=
  { s with range_start := none, range_end := none }

/-- `PlaybackState::reset_timing`, with `Instant::now()` passed in. -/
def reset_timing (s : PlaybackState) (now : Nat) : PlaybackState :=
  { s with last_update := now }

/-- `PlaybackState::is_at_start`. -/
def is_at_start (s : PlaybackState) : Bool :=
  s.current_frame ≤ s.effective_start

/-- `PlaybackState::is_at_end`. -/
def is_at_end (s : PlaybackState) (total_frames : Nat) : Bool :=
  s.current_frame ≥ s.effective_end total_frames

end PlaybackState

/-- States of the clock reachable from `PlaybackState::new` through the
public operations, for a fixed `total` frame count (exactly the
operation set of playback.rs, with arbitrary arguments). -/
inductive ClockReachable (total : Nat) : PlaybackState → Prop where
  | init (now : Nat) : ClockReachable total (PlaybackState.new now)
  | advance {s : PlaybackState} (now : Nat) :
      ClockReachable total s → ClockReachable total (s.advance total now).1
  | previous {s : PlaybackState} :
      ClockReachable total s → ClockReachable total (s.previous total)
  | go_to_start {s : PlaybackState} :
      ClockReachable total s → ClockReachable total s.go_to_start
  | go_to_end {s : PlaybackState} :
      ClockReachable total s → ClockReachable total (s.go_to_end total)
  | set_frame {s : PlaybackState} (f : Nat) :
      ClockReachable total s → ClockReachable total (s.set_frame f total)
  | set_speed {s : PlaybackState} (sp : ℚ) :
      ClockReachable total s → ClockReachable total (s.set_speed sp)
  | set_range {s : PlaybackState} (st en : Option Nat) :
      ClockReachable total s → ClockReachable total (s.set_range st en)
  | clear_range {s : PlaybackState} :
      ClockReachable total s → ClockReachable total s.clear_range
  | mark_advanced {s : PlaybackState} (now : Nat) :
      ClockReachable total s → ClockReachable total (s.mark_advanced now)
  | reset_timing {s : PlaybackState} (now : Nat) :
      ClockReachable total s → ClockReachable total (s.reset_timing now)

/-- Same reachable-state relation, but every `set_range` call keeps the
start of the range (when set) below `total` — the restriction under
which the current-frame invariant actually holds. -/
inductive ClockReachableGood (total : Nat) : PlaybackState → Prop where
  | init (now : Nat) : ClockReachableGood total (PlaybackState.new now)
  | advance {s : PlaybackState} (now : Nat) :
      ClockReachableGood total s → ClockReachableGood total (s.advance total now).1
  | previous {s : PlaybackState} :
      ClockReachableGood total s → ClockReachableGood total (s.previous total)
  | go_to_start {s : PlaybackState} :
      ClockReachableGood total s → ClockReachableGood total s.go_to_start
  | go_to_end {s : PlaybackState} :
      ClockReachableGood total s → ClockReachableGood total (s.go_to_end total)
  | set_frame {s : PlaybackState} (f : Nat) :
      ClockReachableGood total s → ClockReachableGood total (s.set_frame f total)
  | set_speed {s : PlaybackState} (sp : ℚ) :
      ClockReachableGood total s → ClockReachableGood total (s.set_speed sp)
  | set_range {s : PlaybackState} (st en : Option Nat)
      (hst : ∀ r, st = some r → r < total) :
      ClockReachableGood total s → ClockReachableGood total (s.set_range st en)
  | clear_range {s : PlaybackState} :
      ClockReachableGood total s → ClockReachableGood total s.clear_range
  | mark_advanced {s : PlaybackState} (now : Nat) :
      ClockReachableGood total s → ClockReachableGood total (s.mark_advanced now)
  | reset_timing {s : PlaybackState} (now : Nat) :
      ClockReachableGood total s → ClockReachableGood total (s.reset_timing now)

/-! ## Timeline interaction model (src/gui/timeline.rs) -/

/-- `DEFAULT_VISIBLE_FRAMES` from timeline.rs. -/
def DEFAULT_VISIBLE_FRAMES : Nat := 100

/-- `MIN_VISIBLE_FRAMES` from timeline.rs. -/
def MIN_VISIBLE_FRAMES : Nat := 10

/-- `MAX_VISIBLE_FRAMES` from timeline.rs. -/
def MAX_VISIBLE_FRAMES : Nat := 10000

/-- `ZOOM_FACTOR` from timeline.rs (`1.15`). -/
def ZOOM_FACTOR : ℚ := 1.15

/-- Rust `u64::clamp` (`min(max(x, lo), hi)` for `lo ≤ hi`). -/
def clampNat (x lo hi : Nat) : Nat := min (max x lo) hi

/-- The Rust float-to-`u64` cast: truncate toward zero, saturating at 0
from below.  On `ℚ` this equals `(⌊q⌋).toNat` for every `q`. -/
def ratToU64 (q : ℚ) : Nat := (⌊q⌋).toNat

/-- An egui `Rect`, reduced to its four edges (`min = (left, top)`,
`max = (right, bottom)`). -/
structure Rect where
  left : ℚ
  top : ℚ
  right : ℚ
  bottom : ℚ
deriving DecidableEq, Repr

/-- `Rect::width`. -/
def Rect.width (r : Rect) : ℚ := r.right - r.left

/-- `Rect::contains` (inclusive on all edges, as in egui). -/
def Rect.contains (r : Rect) (p : ℚ × ℚ) : Bool :=
  r.left ≤ p.1 && p.1 ≤ r.right && r.top ≤ p.2 && p.2 ≤ r.bottom

/-- `ViewAction` from timeline.rs. -/
inductive ViewAction where
  | Zoom (visible_frames : Nat) (scroll_offset : Nat)
  | Scroll (scroll_offset : Nat)
  | StartSelection (frame : Nat)
  | UpdateSelection (frame : Nat)
  | FinishSelection
deriving DecidableEq, Repr

/-- `TimelineConfig` from timeline.rs. -/
structure TimelineConfig where
  scroll_offset : Nat
  visible_frames : Nat
  current_frame : Nat
  total_frames : Nat
deriving DecidableEq, Repr

/-- The drag-related fields of an egui `Response` consumed by the
interaction handlers.  `interact_pointer_pos` is the (single) pointer
position the handlers query — the source reads it both as the drag
origin and as the current position, from the same call. -/
structure DragInput where
  dragged : Bool
  drag_started : Bool
  drag_stopped : Bool
  interact_pointer_pos : Option (ℚ × ℚ)
  drag_delta : ℚ × ℚ
deriving DecidableEq, Repr

/-- `TimelineRenderer::calculate_scrollbar_thumb_width`. -/
def calculate_scrollbar_thumb_width (cfg : TimelineConfig) (track_width : ℚ) : ℚ :=
  if cfg.total_frames = 0 then
    track_width
  else
    let ratio := (cfg.visible_frames : ℚ) / (cfg.total_frames : ℚ)
    min (max (track_width * ratio) 20) track_width

/-- `TimelineRenderer::handle_scrollbar_drag`. -/
def handle_scrollbar_drag (cfg : TimelineConfig) (inp : DragInput)
    (scrollbar_rect : Rect) : Option ViewAction :=
  if !inp.dragged then none
  else
    match inp.interact_pointer_pos with
    | none => none
    | some drag_origin =>
      if !scrollbar_rect.contains drag_origin then none
      else
        let pointer_pos := drag_origin
        let track_width := scrollbar_rect.width
        let thumb_width := calculate_scrollbar_thumb_width cfg track_width
        let usable_width := track_width - thumb_width
        if usable_width ≤ 0 then none
        else
          let relative_x :=
            min (max (pointer_pos.1 - scrollbar_rect.left - thumb_width / 2) 0) usable_width
          let scroll_ratio := relative_x / usable_width
          let max_scroll := cfg.total_frames - cfg.visible_frames
          let new_scroll_offset := ratToU64 (scroll_ratio * (max_scroll : ℚ))
          some (.Scroll (min new_scroll_offset max_scroll))

/-- The `x_to_frame` closure of
`TimelineRenderer::handle_selection_drag`:
`scroll_offset.saturating_add(((x - left).max(0) / frame_width) as u64)`
capped at `total_frames.saturating_sub(1)`. -/
def selection_x_to_frame (cfg : TimelineConfig) (tlLeft frame_width x : ℚ) : Nat :=
  let relative_x := max (x - tlLeft) 0
  let frame_offset := ratToU64 (relative_x / frame_width)
  let frame := cfg.scroll_offset + frame_offset
  min frame (cfg.total_frames - 1)

/-- `TimelineRenderer::handle_selection_drag`. -/
def handle_selection_drag (cfg : TimelineConfig) (inp : DragInput)
    (timeline_rect : Rect) : Option ViewAction :=
  let frame_width := timeline_rect.width / (cfg.visible_frames : ℚ)
  match inp.interact_pointer_pos with
  | none => none
  | some drag_origin =>
    if !timeline_rect.contains drag_origin then none
    else if inp.drag_started then
      some (.StartSelection (selection_x_to_frame cfg timeline_rect.left frame_width drag_origin.1))
    else if inp.dragged then
      some (.UpdateSelection (selection_x_to_frame cfg timeline_rect.left frame_width drag_origin.1))
    else if inp.drag_stopped then
      some .FinishSelection
    else
      none

/-- `TimelineRenderer::handle_timeline_drag` (`shift_held` selects the
selection branch, otherwise drag-to-pan). -/
def handle_timeline_drag (cfg : TimelineConfig) (shift_held : Bool) (inp : DragInput)
    (timeline_rect : Rect) : Option ViewAction :=
  if shift_held then handle_selection_drag cfg inp timeline_rect
  else if !inp.dragged then none
  else
    match inp.interact_pointer_pos with
    | none => none
    | some drag_origin =>
      if !timeline_rect.contains drag_origin then none
      else if |inp.drag_delta.1| < 0.1 then none
      else
        let frame_width := timeline_rect.width / (cfg.visible_frames : ℚ)
        let frame_delta := -inp.drag_delta.1 / frame_width
        let new_scroll := (cfg.scroll_offset : ℚ) + frame_delta
        let max_scroll := ((cfg.total_frames - cfg.visible_frames : Nat) : ℚ)
        let new_scroll_offset := ratToU64 (min (max new_scroll 0) max_scroll)
        if new_scroll_offset = cfg.scroll_offset then none
        else some (.Scroll new_scroll_offset)

/-- The zoom factor picked by `TimelineRenderer::handle_zoom` from the
wheel direction. -/
def zoom_factor_of (scroll_delta : ℚ) : ℚ :=
  if scroll_delta > 0 then 1 / ZOOM_FACTOR else ZOOM_FACTOR

/-- The new visible-frame count computed by
`TimelineRenderer::handle_zoom`:
`((visible_frames as f32 * zoom_factor) as u64).clamp(MIN_VISIBLE_FRAMES, MAX_VISIBLE_FRAMES)`. -/
def zoom_new_visible (visible_frames : Nat) (scroll_delta : ℚ) : Nat :=
  clampNat (ratToU64 ((visible_frames : ℚ) * zoom_factor_of scroll_delta))
    MIN_VISIBLE_FRAMES MAX_VISIBLE_FRAMES

/-- Frame width for a given visible-frame count
(`timeline_rect.width() / visible as f32`). -/
def frame_width_of (timeline_rect : Rect) (visible_frames : Nat) : ℚ :=
  timeline_rect.width / (visible_frames : ℚ)

/-- `frame_under_mouse` of `TimelineRenderer::handle_zoom`:
`scroll_offset as f32 + (pointer_x - left).max(0) / frame_width`. -/
def zoom_frame_under_mouse (cfg : TimelineConfig) (pointer_pos : ℚ × ℚ)
    (timeline_rect : Rect) : ℚ :=
  (cfg.scroll_offset : ℚ) +
    (max (pointer_pos.1 - timeline_rect.left) 0) / frame_width_of timeline_rect cfg.visible_frames

/-- The unclamped new scroll offset of `TimelineRenderer::handle_zoom`:
`frame_under_mouse - mouse_offset_x / new_frame_width`. -/
def zoom_raw_scroll (cfg : TimelineConfig) (pointer_pos : ℚ × ℚ) (scroll_delta : ℚ)
    (timeline_rect : Rect) : ℚ :=
  zoom_frame_under_mouse cfg pointer_pos timeline_rect -
    (max (pointer_pos.1 - timeline_rect.left) 0) /
      frame_width_of timeline_rect (zoom_new_visible cfg.visible_frames scroll_delta)

/-- `TimelineRenderer::handle_zoom`. -/
def handle_zoom (cfg : TimelineConfig) (pointer_pos : ℚ × ℚ) (scroll_delta : ℚ)
    (timeline_rect : Rect) : Option ViewAction :=
  let new_visible_frames := zoom_new_visible cfg.visible_frames scroll_delta
  if new_visible_frames = cfg.visible_frames then none
  else
    let new_scroll_offset :=
      ratToU64 (max (zoom_raw_scroll cfg pointer_pos scroll_delta timeline_rect) 0)
    let max_scroll := cfg.total_frames - new_visible_frames
    some (.Zoom new_visible_frames (min new_scroll_offset max_scroll))

/-! ## Spec-side comparison definitions -/

/-- The zoom step exactly as the spec words it, with literal rounding:
`clamp(round(old_visible_frames * f), 10, 10000)`.  The code instead
truncates the product toward zero. -/
def spec_zoom_visible (visible_frames : Nat) (scroll_delta : ℚ) : Nat :=
  clampNat (round ((visible_frames : ℚ) * zoom_factor_of scroll_delta)).toNat
    MIN_VISIBLE_FRAMES MAX_VISIBLE_FRAMES

/-- The pan target offset as the spec words it: pixel delta divided by
the current frame width, negated, added to the scroll offset, clamped
to `[0, total_frames - visible_frames]` and truncated to `u64`. -/
def spec_pan_offset (cfg : TimelineConfig) (drag_delta_x : ℚ) (timeline_rect : Rect) : Nat :=
  ratToU64 (min (max ((cfg.scroll_offset : ℚ) +
      -drag_delta_x / (timeline_rect.width / (cfg.visible_frames : ℚ))) 0)
    ((cfg.total_frames - cfg.visible_frames : Nat) : ℚ))

/-- `x_to_frame` exactly as the spec words it:
`scroll_offset + floor((x - area_left) / frame_width)` clamped to
`[0, total_frames - 1]`.  The code instead clamps `x - area_left` to 0
before dividing. -/
def spec_x_to_frame (cfg : TimelineConfig) (tlLeft frame_width x : ℚ) : ℤ :=
  max 0 (min ((cfg.total_frames : ℤ) - 1)
    ((cfg.scroll_offset : ℤ) + ⌊(x - tlLeft) / frame_width⌋))

/-! ## C1: advance semantics -/

/-- C1: if `current_frame < effective_end`, `advance` increments the
frame by one, stamps `last_update`, and returns true; at
`effective_end` with looping it jumps to `effective_start`, stamps, and
returns true; at `effective_end` without looping it leaves the state
unchanged and returns false; and with range `(10, 20)` set, looping
from frame 20 wraps to frame 10. -/
theorem advance_step_semantics (s : PlaybackState) (total_frames now : Nat) :
    (s.current_frame < s.effective_end total_frames →
      s.advance total_frames now =
        ({ s with current_frame := s.current_frame + 1, last_update := now }, true)) ∧
    (s.current_frame = s.effective_end total_frames → s.loop_enabled = true →
      s.advance total_frames now =
        ({ s with current_frame := s.effective_start, last_update := now }, true)) ∧
    (s.current_frame = s.effective_end total_frames → s.loop_enabled = false →
      s.advance total_frames now = (s, false)) ∧
    (s.range_start = some 10 → s.range_end = some 20 → s.current_frame = 20 →
      s.loop_enabled = true → 21 ≤ total_frames →
      (s.advance total_frames now).1.current_frame = 10 ∧
        (s.advance total_frames now).2 = true) := by
  refine ⟨fun h => ?_, fun h hl => ?_, fun h hl => ?_, fun h1 h2 h3 h4 h5 => ?_⟩
  · simp only [PlaybackState.advance, PlaybackState.mark_advanced]
    rw [if_neg (by omega)]
  · simp only [PlaybackState.advance, PlaybackState.mark_advanced]
    rw [if_pos (by omega), if_pos hl]
  · simp only [PlaybackState.advance, PlaybackState.mark_advanced]
    rw [if_pos (by omega), if_neg (by simp [hl])]
  · have hend : s.effective_end total_frames = 20 := by
      rw [PlaybackState.effective_end, h2]
      simp only [Option.map_some', Option.getD_some]
      omega
    have hstart : s.effective_start = 10 := by
      simp [PlaybackState.effective_start, h1]
    simp only [PlaybackState.advance, PlaybackState.mark_advanced]
    rw [if_pos (by omega), if_pos h4]
    simp [hstart]

/-- Witness for C1: a concrete mid-range step and a concrete range
wrap-around. -/
theorem advance_step_semantics_witness :
    (⟨5, 1, true, none, none, 0⟩ : PlaybackState).advance 100 7 =
      (⟨6, 1, true, none, none, 7⟩, true) ∧
    ((⟨20, 1, true, some 10, some 20, 0⟩ : PlaybackState).advance 100 7).1.current_frame = 10 :=
  ⟨(advance_step_semantics ⟨5, 1, true, none, none, 0⟩ 100 7).1 (by decide),
   ((advance_step_semantics ⟨20, 1, true, some 10, some 20, 0⟩ 100 7).2.2.2
      rfl rfl rfl rfl (by omega)).1⟩
/-! ## C6: speed presets -/

lemma next_speed_preset_eq (s : PlaybackState) :
    s.next_speed_preset =
      if s.speed < 0.25 then 0.25
      else if s.speed < 0.5 then 0.5
      else if s.speed < 1 then 1
      else if s.speed < 2 then 2
      else 4 := by
  simp only [PlaybackState.next_speed_preset, SPEED_OPTIONS]
  by_cases h1 : s.speed < 0.25
  · rw [List.find?_cons_of_pos _ (by simpa using h1)]
    simp [h1]
  · rw [List.find?_cons_of_neg _ (by simpa using h1)]
    by_cases h2 : s.speed < 0.5
    · rw [List.find?_cons_of_pos _ (by simpa using h2)]
      simp [h1, h2]
    · rw [List.find?_cons_of_neg _ (by simpa using h2)]
      by_cases h3 : s.speed < 1
      · rw [List.find?_cons_of_pos _ (by simpa using h3)]
        simp [h1, h2, h3]
      · rw [List.find?_cons_of_neg _ (by simpa using h3)]
        by_cases h4 : s.speed < 2
        · rw [List.find?_cons_of_pos _ (by simpa using h4)]
          simp [h1, h2, h3, h4]
        · rw [List.find?_cons_of_neg _ (by simpa using h4)]
          by_cases h5 : s.speed < 4
          · rw [List.find?_cons_of_pos _ (by simpa using h5)]
            simp [h1, h2, h3, h4]
          · rw [List.find?_cons_of_neg _ (by simpa using h5)]
            simp [h1, h2, h3, h4]

lemma prev_speed_preset_eq (s : PlaybackState) :
    s.prev_speed_preset =
      if s.speed > 4 then 4
      else if s.speed > 2 then 2
      else if s.speed > 1 then 1
      else if s.speed > 0.5 then 0.5
      else 0.25 := by
  simp only [PlaybackState.prev_speed_preset, SPEED_OPTIONS]
  rw [show ([(0.25 : ℚ), 0.5, 1, 2, 4].reverse) = [4, 2, 1, 0.5, 0.25] from by
    with_unfolding_all decide]
  by_cases h1 : (4 : ℚ) < s.speed
  · rw [List.find?_cons_of_pos _ (by simpa using h1)]
    simp [h1]
  · rw [List.find?_cons_of_neg _ (by simpa using h1)]
    by_cases h2 : (2 : ℚ) < s.speed
    · rw [List.find?_cons_of_pos _ (by simpa using h2)]
      simp [h1, h2]
    · rw [List.find?_cons_of_neg _ (by simpa using h2)]
      by_cases h3 : (1 : ℚ) < s.speed
      · rw [List.find?_cons_of_pos _ (by simpa using h3)]
        simp [h1, h2, h3]
      · rw [List.find?_cons_of_neg _ (by simpa using h3)]
        by_cases h4 : (0.5 : ℚ) < s.speed
        · rw [List.find?_cons_of_pos _ (by simpa using h4)]
          simp [h1, h2, h3, h4]
        · rw [List.find?_cons_of_neg _ (by simpa using h4)]
          by_cases h5 : (0.25 : ℚ) < s.speed
          · rw [List.find?_cons_of_pos _ (by simpa using h5)]
            simp [h1, h2, h3, h4]
          · rw [List.find?_cons_of_neg _ (by simpa using h5)]
            simp [h1, h2, h3, h4]

/-- C6: `next_speed_preset` returns the smallest preset strictly above
the current speed (or the largest preset, 4.0, when at or above it),
and `prev_speed_preset` the largest preset strictly below (or the
smallest preset, 0.25, when at or below it); both results are presets,
so a speed sitting exactly on a preset moves to the adjacent one. -/
theorem speed_preset_adjacent (s : PlaybackState) :
    s.next_speed_preset ∈ SPEED_OPTIONS ∧
    s.prev_speed_preset ∈ SPEED_OPTIONS ∧
    (s.speed < 4 → s.speed < s.next_speed_preset ∧
      ∀ p ∈ SPEED_OPTIONS, s.speed < p → s.next_speed_preset ≤ p) ∧
    (4 ≤ s.speed → s.next_speed_preset = 4) ∧
    (0.25 < s.speed → s.prev_speed_preset < s.speed ∧
      ∀ p ∈ SPEED_OPTIONS, p < s.speed → p ≤ s.prev_speed_preset) ∧
    (s.speed ≤ 0.25 → s.prev_speed_preset = 0.25) := by
  rw [next_speed_preset_eq, prev_speed_preset_eq]
  refine ⟨?_, ?_, fun hlt4 => ⟨?_, ?_⟩, fun hge4 => ?_, fun hgt0 => ⟨?_, ?_⟩, fun hle0 => ?_⟩
  · split_ifs <;> norm_num [SPEED_OPTIONS]
  · split_ifs <;> norm_num [SPEED_OPTIONS]
  · split_ifs <;> linarith
  · intro p hp hsp
    simp only [SPEED_OPTIONS, List.mem_cons, List.not_mem_nil, or_false] at hp
    rcases hp with rfl | rfl | rfl | rfl | rfl <;> split_ifs <;> linarith
  · split_ifs <;> linarith
  · split_ifs <;> linarith
  · intro p hp hsp
    simp only [SPEED_OPTIONS, List.mem_cons, List.not_mem_nil, or_false] at hp
    rcases hp with rfl | rfl | rfl | rfl | rfl <;> split_ifs <;> linarith
  · split_ifs <;> linarith

/-- Witness for C6: at speed 1.0 the next preset is the adjacent 2.0
and the previous preset is the adjacent 0.5. -/
theorem speed_preset_adjacent_witness :
    (1 : ℚ) < (⟨0, 1, true, none, none, 0⟩ : PlaybackState).next_speed_preset ∧
    (⟨0, 1, true, none, none, 0⟩ : PlaybackState).next_speed_preset ≤ 2 ∧
    (⟨0, 1, true, none, none, 0⟩ : PlaybackState).prev_speed_preset < 1 ∧
    (0.5 : ℚ) ≤ (⟨0, 1, true, none, none, 0⟩ : PlaybackState).prev_speed_preset := by
  have h := speed_preset_adjacent ⟨0, 1, true, none, none, 0⟩
  exact ⟨(h.2.2.1 (by norm_num)).1,
    (h.2.2.1 (by norm_num)).2 2 (by with_unfolding_all decide) (by norm_num),
    (h.2.2.2.2.1 (by norm_num)).1,
    (h.2.2.2.2.1 (by norm_num)).2 0.5 (by with_unfolding_all decide) (by norm_num)⟩

/-! ## C9: which operations touch which fields -/

/-- `t` agrees with `s` on every field except possibly `current_frame`. -/
def OnlyFrameChanged (s t : PlaybackState) : Prop :=
  t.speed = s.speed ∧ t.loop_enabled = s.loop_enabled ∧
  t.range_start = s.range_start ∧ t.range_end = s.range_end ∧
  t.last_update = s.last_update

/-- `t` agrees with `s` on every field except possibly `speed`. -/
def OnlySpeedChanged (s t : PlaybackState) : Prop :=
  t.current_frame = s.current_frame ∧ t.loop_enabled = s.loop_enabled ∧
  t.range_start = s.range_start ∧ t.range_end = s.range_end ∧
  t.last_update = s.last_update

/-- `t` agrees with `s` on every field except possibly the range. -/
def OnlyRangeChanged (s t : PlaybackState) : Prop :=
  t.current_frame = s.current_frame ∧ t.speed = s.speed ∧
  t.loop_enabled = s.loop_enabled ∧ t.last_update = s.last_update

/-- `t` agrees with `s` on every field except possibly `last_update`. -/
def OnlyTimingChanged (s t : PlaybackState) : Prop :=
  t.current_frame = s.current_frame ∧ t.speed = s.speed ∧
  t.loop_enabled = s.loop_enabled ∧ t.range_start = s.range_start ∧
  t.range_end = s.range_end

/-- C9: `last_update` is written only by an accepted `advance`,
`mark_advanced`, and `reset_timing`; `previous`, `go_to_start`,
`go_to_end`, `set_frame`, `set_speed`, `set_range`, `clear_range`, and
a rejected `advance` leave it unchanged, and every operation leaves all
fields other than the ones it is specified to change unchanged. -/
theorem last_update_discipline (s : PlaybackState) (total_frames now f : Nat) (sp : ℚ)
    (st en : Option Nat) :
    OnlyFrameChanged s (s.previous total_frames) ∧
    OnlyFrameChanged s s.go_to_start ∧
    OnlyFrameChanged s (s.go_to_end total_frames) ∧
    OnlyFrameChanged s (s.set_frame f total_frames) ∧
    OnlySpeedChanged s (s.set_speed sp) ∧
    OnlyRangeChanged s (s.set_range st en) ∧
    (s.set_range st en).range_start = st ∧ (s.set_range st en).range_end = en ∧
    OnlyRangeChanged s s.clear_range ∧
    OnlyTimingChanged s (s.mark_advanced now) ∧ (s.mark_advanced now).last_update = now ∧
    OnlyTimingChanged s (s.reset_timing now) ∧ (s.reset_timing now).last_update = now ∧
    ((s.advance total_frames now).2 = false → (s.advance total_frames now).1 = s) ∧
    ((s.advance total_frames now).2 = true →
      (s.advance total_frames now).1.last_update = now ∧
      (s.advance total_frames now).1.speed = s.speed ∧
      (s.advance total_frames now).1.loop_enabled = s.loop_enabled ∧
      (s.advance total_frames now).1.range_start = s.range_start ∧
      (s.advance total_frames now).1.range_end = s.range_end) := by
  refine ⟨?_, ?_, ?_, ?_, ?_, ?_, rfl, rfl, ?_, ?_, rfl, ?_, rfl, ?_, ?_⟩
  · unfold PlaybackState.previous OnlyFrameChanged
    by_cases h1 : s.current_frame ≤ s.effective_start <;>
      by_cases h2 : s.loop_enabled <;> simp [h1, h2]
  · exact ⟨rfl, rfl, rfl, rfl, rfl⟩
  · exact ⟨rfl, rfl, rfl, rfl, rfl⟩
  · exact ⟨rfl, rfl, rfl, rfl, rfl⟩
  · exact ⟨rfl, rfl, rfl, rfl, rfl⟩
  · exact ⟨rfl, rfl, rfl, rfl⟩
  · exact ⟨rfl, rfl, rfl, rfl⟩
  · exact ⟨rfl, rfl, rfl, rfl, rfl⟩
  · exact ⟨rfl, rfl, rfl, rfl, rfl⟩
  · unfold PlaybackState.advance PlaybackState.mark_advanced
    by_cases h1 : s.effective_end total_frames ≤ s.current_frame <;>
      by_cases h2 : s.loop_enabled <;> simp [h1, h2]
  · unfold PlaybackState.advance PlaybackState.mark_advanced
    by_cases h1 : s.effective_end total_frames ≤ s.current_frame <;>
      by_cases h2 : s.loop_enabled <;> simp [h1, h2]

/-- Witness for C9: a rejected `advance` (at the last frame with
looping off) returns the state fully unchanged, and `previous` keeps
`last_update` intact. -/
theorem last_update_discipline_witness :
    ((⟨99, 1, false, none, none, 3⟩ : PlaybackState).advance 100 7).1 =
      ⟨99, 1, false, none, none, 3⟩ ∧
    ((⟨99, 1, false, none, none, 3⟩ : PlaybackState).previous 100).last_update = 3 := by
  have h := last_update_discipline ⟨99, 1, false, none, none, 3⟩ 100 7 0 1 none none
  exact ⟨(h.2.2.2.2.2.2.2.2.2.2.2.2.2.1) (by with_unfolding_all decide),
    (h.1).2.2.2.2⟩

/-! ## C2: current-frame invariant over reachable states -/

lemma effective_end_le (s : PlaybackState) (total : Nat) :
    s.effective_end total ≤ total - 1 := by
  unfold PlaybackState.effective_end
  cases s.range_end <;> simp

lemma effective_start_le {total : Nat} {s : PlaybackState}
    (hr : ∀ r, s.range_start = some r → r < total) :
    s.effective_start ≤ total - 1 := by
  unfold PlaybackState.effective_start
  cases hs0 : s.range_start with
  | none => simp
  | some r => have := hr r hs0; simp; omega

lemma clock_reachable_good_inv {total : Nat} {s : PlaybackState}
    (h : ClockReachableGood total s) :
    s.current_frame ≤ total - 1 ∧ (∀ r, s.range_start = some r → r < total) := by
  induction h with
  | init now => simp [PlaybackState.new]
  | @advance s now hs ih =>
    obtain ⟨hc, hr⟩ := ih
    have hend := effective_end_le s total
    have hstart := effective_start_le hr
    unfold PlaybackState.advance PlaybackState.mark_advanced
    by_cases h1 : s.effective_end total ≤ s.current_frame <;>
      by_cases h2 : s.loop_enabled <;> simp [h1, h2] <;> exact ⟨by omega, hr⟩
  | @previous s hs ih =>
    obtain ⟨hc, hr⟩ := ih
    have hend := effective_end_le s total
    unfold PlaybackState.previous
    by_cases h1 : s.current_frame ≤ s.effective_start <;>
      by_cases h2 : s.loop_enabled <;> simp [h1, h2] <;> exact ⟨by omega, hr⟩
  | @go_to_start s hs ih =>
    obtain ⟨hc, hr⟩ := ih
    have hstart := effective_start_le hr
    exact ⟨hstart, hr⟩
  | @go_to_end s hs ih =>
    obtain ⟨hc, hr⟩ := ih
    exact ⟨effective_end_le s total, hr⟩
  | @set_frame s f hs ih =>
    obtain ⟨hc, hr⟩ := ih
    refine ⟨?_, hr⟩
    simp only [PlaybackState.set_frame]
    omega
  | @set_speed s sp hs ih => exact ⟨ih.1, ih.2⟩
  | @set_range s st en hst hs ih =>
    exact ⟨ih.1, fun r hr' => hst r hr'⟩
  | @clear_range s hs ih =>
    refine ⟨ih.1, fun r hr' => ?_⟩
    simp [PlaybackState.clear_range] at hr'
  | @mark_advanced s now hs ih => exact ⟨ih.1, ih.2⟩
  | @reset_timing s now hs ih => exact ⟨ih.1, ih.2⟩

/-- C2 (amended): for every state reachable through the public clock
operations in which each `set_range` call keeps the range start below
`total`, `current_frame` stays within `[0, total-1]` when `total > 0`
and equals 0 when `total = 0`. -/
theorem current_frame_invariant (total : Nat) (s : PlaybackState)
    (h : ClockReachableGood total s) :
    s.current_frame ≤ total - 1 ∧ (total = 0 → s.current_frame = 0) := by
  have hinv := clock_reachable_good_inv h
  exact ⟨hinv.1, fun h0 => by omega⟩

/-- Witness for C2: the invariant at a small concrete reachable state
(`new`, then `set_range (some 10) (some 20)`, then `go_to_start`, with
100 total frames). -/
theorem current_frame_invariant_witness :
    (((PlaybackState.new 0).set_range (some 10) (some 20)).go_to_start).current_frame ≤ 99 :=
  (current_frame_invariant 100 _
    (ClockReachableGood.go_to_start
      (ClockReachableGood.set_range (some 10) (some 20)
        (fun r hr => by injection hr with h; omega)
        (ClockReachableGood.init 0)))).1

/-- The concrete state refuting C2 as stated: `set_range` with
`range_start = some 1000` followed by `go_to_start`. -/
def c2BadState : PlaybackState :=
  ((PlaybackState.new 0).set_range (some 1000) none).go_to_start

/-- Counterexample to C2 as stated: with 100 total frames, the state
after `set_range(Some(1000), None)` and `go_to_start` is reachable
through the public operations, yet `current_frame = 1000` lies outside
`[0, 99]`. -/
theorem current_frame_invariant_counterexample :
    ClockReachable 100 c2BadState ∧
    c2BadState.current_frame = 1000 ∧
    ¬ c2BadState.current_frame ≤ 100 - 1 :=
  ⟨ClockReachable.go_to_start
      (ClockReachable.set_range (some 1000) none (ClockReachable.init 0)),
   rfl, by decide⟩

/-! ## C10: scrollbar drag is a no-op when the thumb fills the track -/

/-- C10: whenever the computed scrollbar thumb width reaches the full
track width — in particular whenever `total_frames = 0` — a drag in
the scrollbar emits no action: the `usable_width ≤ 0` guard returns
`none` before the scroll-ratio division is reached. -/
theorem scrollbar_full_thumb_noop (cfg : TimelineConfig) (inp : DragInput)
    (scrollbar_rect : Rect) :
    (cfg.total_frames = 0 →
      calculate_scrollbar_thumb_width cfg scrollbar_rect.width = scrollbar_rect.width) ∧
    (calculate_scrollbar_thumb_width cfg scrollbar_rect.width = scrollbar_rect.width →
      handle_scrollbar_drag cfg inp scrollbar_rect = none) := by
  constructor
  · intro h0
    simp [calculate_scrollbar_thumb_width, h0]
  · intro hthumb
    unfold handle_scrollbar_drag
    cases hd : inp.dragged
    · simp
    · simp only [Bool.not_true, Bool.false_eq_true, if_false]
      cases hp : inp.interact_pointer_pos with
      | none => rfl
      | some p =>
        simp only
        by_cases hcont : scrollbar_rect.contains p
        · simp only [hcont, Bool.not_true, Bool.false_eq_true, if_false, hthumb, sub_self]
          rw [if_pos le_rfl]
        · simp [hcont]

/-- Witness for C10: with zero total frames and a concrete drag inside
the scrollbar, no action is emitted. -/
theorem scrollbar_full_thumb_noop_witness :
    handle_scrollbar_drag ⟨0, 100, 0, 0⟩ ⟨true, false, false, some (500, 5), (1, 0)⟩
      ⟨120, 0, 1000, 16⟩ = none :=
  (scrollbar_full_thumb_noop ⟨0, 100, 0, 0⟩ ⟨true, false, false, some (500, 5), (1, 0)⟩
      ⟨120, 0, 1000, 16⟩).2
    ((scrollbar_full_thumb_noop ⟨0, 100, 0, 0⟩ ⟨true, false, false, some (500, 5), (1, 0)⟩
        ⟨120, 0, 1000, 16⟩).1 rfl)

/-! ## C3: behaviour on an empty log -/

/-- C3 (amended): with `total_frames = 0`, a scrollbar drag emits no
action, and a zoom wheel event either emits nothing or emits a `Zoom`
action whose `scroll_offset` is 0 and whose `visible_frames` stays in
`[10, 10000]`; no division by zero is reached (the scroll-ratio
division sits behind the `usable_width ≤ 0` guard). -/
theorem degenerate_total_actions (cfg : TimelineConfig) (inp : DragInput)
    (scrollbar_rect timeline_rect : Rect) (pointer_pos : ℚ × ℚ) (scroll_delta : ℚ)
    (h0 : cfg.total_frames = 0) :
    handle_scrollbar_drag cfg inp scrollbar_rect = none ∧
    (∀ v o, handle_zoom cfg pointer_pos scroll_delta timeline_rect = some (.Zoom v o) →
      o = 0 ∧ MIN_VISIBLE_FRAMES ≤ v ∧ v ≤ MAX_VISIBLE_FRAMES) := by
  constructor
  · exact (scrollbar_full_thumb_noop cfg inp scrollbar_rect).2
      ((scrollbar_full_thumb_noop cfg inp scrollbar_rect).1 h0)
  · intro v o hres
    unfold handle_zoom at hres
    dsimp only [] at hres
    split at hres
    · exact absurd hres (by simp)
    · rw [Option.some_inj] at hres
      have hv : zoom_new_visible cfg.visible_frames scroll_delta = v := by
        cases hres; rfl
      have ho : o = min (ratToU64 (max (zoom_raw_scroll cfg pointer_pos scroll_delta
          timeline_rect) 0)) (cfg.total_frames - zoom_new_visible cfg.visible_frames
          scroll_delta) := by
        cases hres; rfl
      refine ⟨?_, ?_, ?_⟩
      · rw [ho, h0]
        simp
      · rw [← hv]
        unfold zoom_new_visible clampNat MIN_VISIBLE_FRAMES MAX_VISIBLE_FRAMES
        omega
      · rw [← hv]
        unfold zoom_new_visible clampNat MIN_VISIBLE_FRAMES MAX_VISIBLE_FRAMES
        omega

/-- Witness for C3 (amended): concrete degenerate viewport — the
scrollbar drag yields nothing and the concrete emitted zoom keeps
`scroll_offset = 0` with `visible_frames = 86 ∈ [10, 10000]`. -/
theorem degenerate_total_actions_witness :
    handle_scrollbar_drag ⟨0, 100, 0, 0⟩ ⟨true, false, false, some (500, 5), (1, 0)⟩
      ⟨120, 20, 1000, 36⟩ = none ∧
    ((0 : Nat) = 0 ∧ MIN_VISIBLE_FRAMES ≤ 86 ∧ 86 ≤ MAX_VISIBLE_FRAMES) := by
  have h := degenerate_total_actions ⟨0, 100, 0, 0⟩
    ⟨true, false, false, some (500, 5), (1, 0)⟩ ⟨120, 20, 1000, 36⟩ ⟨0, 0, 1000, 10⟩
    (500, 5) 1 rfl
  exact ⟨h.1, h.2 86 0 (by with_unfolding_all decide)⟩

/-- Counterexample to C3 as stated: with `total_frames = 0` a
zoom-modifier wheel event over the timeline does emit an action
(`Zoom { visible_frames: 86, scroll_offset: 0 }`), instead of
returning `None`. -/
theorem degenerate_total_actions_counterexample :
    (⟨0, 100, 0, 0⟩ : TimelineConfig).total_frames = 0 ∧
    handle_zoom ⟨0, 100, 0, 0⟩ (500, 5) 1 ⟨0, 0, 1000, 10⟩ =
      some (.Zoom 86 0) := by
  exact ⟨rfl, by with_unfolding_all decide⟩

/-! ## C4: zoom step and bounds -/

/-- C4 (amended): every emitted `Zoom` action carries
`visible_frames = clamp(trunc(old_visible_frames * f), 10, 10000)` with
`f = 1/1.15` on wheel-up and `1.15` on wheel-down (the code truncates
the product toward zero rather than rounding it), this value never
leaves `[10, 10000]`, and when the clamped value equals the old
`visible_frames` no action is emitted. -/
theorem zoom_visible_truncation (cfg : TimelineConfig) (pointer_pos : ℚ × ℚ)
    (scroll_delta : ℚ) (timeline_rect : Rect) :
    (∀ v o, handle_zoom cfg pointer_pos scroll_delta timeline_rect = some (.Zoom v o) →
      v = clampNat (ratToU64 ((cfg.visible_frames : ℚ) * zoom_factor_of scroll_delta))
            MIN_VISIBLE_FRAMES MAX_VISIBLE_FRAMES ∧
      MIN_VISIBLE_FRAMES ≤ v ∧ v ≤ MAX_VISIBLE_FRAMES) ∧
    (clampNat (ratToU64 ((cfg.visible_frames : ℚ) * zoom_factor_of scroll_delta))
        MIN_VISIBLE_FRAMES MAX_VISIBLE_FRAMES = cfg.visible_frames →
      handle_zoom cfg pointer_pos scroll_delta timeline_rect = none) := by
  constructor
  · intro v o hres
    unfold handle_zoom at hres
    dsimp only [] at hres
    split at hres
    · exact absurd hres (by simp)
    · rw [Option.some_inj] at hres
      have hv : zoom_new_visible cfg.visible_frames scroll_delta = v := by
        cases hres; rfl
      refine ⟨?_, ?_, ?_⟩
      · rw [← hv]; rfl
      · rw [← hv]
        unfold zoom_new_visible clampNat MIN_VISIBLE_FRAMES MAX_VISIBLE_FRAMES
        omega
      · rw [← hv]
        unfold zoom_new_visible clampNat MIN_VISIBLE_FRAMES MAX_VISIBLE_FRAMES
        omega
  · intro heq
    unfold handle_zoom
    dsimp only []
    rw [if_pos (show zoom_new_visible cfg.visible_frames scroll_delta = cfg.visible_frames
      from heq)]

/-- Witness for C4 (amended): a concrete wheel-down event at
`visible_frames = 10` emits `Zoom` with the truncated value 11, inside
`[10, 10000]`. -/
theorem zoom_visible_truncation_witness :
    (11 : Nat) = clampNat (ratToU64 ((10 : ℚ) * zoom_factor_of (-1)))
      MIN_VISIBLE_FRAMES MAX_VISIBLE_FRAMES ∧
    MIN_VISIBLE_FRAMES ≤ 11 ∧ 11 ≤ MAX_VISIBLE_FRAMES :=
  (zoom_visible_truncation ⟨0, 10, 0, 100⟩ (0, 0) (-1) ⟨0, 0, 1000, 10⟩).1 11 0
    (by with_unfolding_all decide)

/-- Counterexample to C4 as stated: at `visible_frames = 10` a
wheel-down event emits `Zoom` with `visible_frames = 11` (truncation of
`10 * 1.15 = 11.5`), while the claimed rounded value is 12. -/
theorem zoom_visible_truncation_counterexample :
    handle_zoom ⟨0, 10, 0, 100⟩ (0, 0) (-1) ⟨0, 0, 1000, 10⟩ = some (.Zoom 11 0) ∧
    spec_zoom_visible 10 (-1) = 12 := by
  constructor
  · with_unfolding_all decide
  · with_unfolding_all decide

/-! ## C7: timeline pan drag -/

/-- C7 (amended): for a pan drag (no modifier, `dragged`, origin inside
the timeline), the resolver first discards drags whose horizontal pixel
delta is below the 0.1-pixel dead zone; otherwise it divides the delta
by the current frame width, negates, adds to `scroll_offset`, clamps to
`[0, total_frames - visible_frames]`, truncates to `u64`, and emits
`Scroll` exactly when that value differs from the current offset. -/
theorem pan_drag_semantics (cfg : TimelineConfig) (inp : DragInput)
    (timeline_rect : Rect) (o : ℚ × ℚ)
    (hdrag : inp.dragged = true)
    (hptr : inp.interact_pointer_pos = some o)
    (hcont : timeline_rect.contains o = true) :
    handle_timeline_drag cfg false inp timeline_rect =
      if |inp.drag_delta.1| < 0.1 then none
      else if spec_pan_offset cfg inp.drag_delta.1 timeline_rect = cfg.scroll_offset then
        none
      else some (.Scroll (spec_pan_offset cfg inp.drag_delta.1 timeline_rect)) := by
  unfold handle_timeline_drag
  rw [hptr]
  simp only [hdrag, Bool.not_true, Bool.false_eq_true, if_false, hcont, Bool.not_false,
    Bool.true_eq_false, if_true]
  rfl

/-- Witness for C7 (amended): a concrete 50-pixel drag at frame width
10 scrolls from offset 5 to the clamped, truncated offset 0. -/
theorem pan_drag_semantics_witness :
    handle_timeline_drag ⟨5, 100, 0, 200⟩ false
        ⟨true, false, false, some (500, 5), (50, 0)⟩ ⟨0, 0, 1000, 10⟩ =
      if |(50 : ℚ)| < 0.1 then none
      else if spec_pan_offset ⟨5, 100, 0, 200⟩ 50 ⟨0, 0, 1000, 10⟩ = 5 then none
      else some (.Scroll (spec_pan_offset ⟨5, 100, 0, 200⟩ 50 ⟨0, 0, 1000, 10⟩)) :=
  pan_drag_semantics ⟨5, 100, 0, 200⟩ ⟨true, false, false, some (500, 5), (50, 0)⟩
    ⟨0, 0, 1000, 10⟩ (500, 5) rfl rfl (by with_unfolding_all decide)

/-- Counterexample to C7 as stated: a 0.05-pixel drag at frame width
0.1 would move the clamped offset from 5 to 4, so the claim requires a
`Scroll` action, but the code's 0.1-pixel dead zone returns `None`. -/
theorem pan_drag_semantics_counterexample :
    handle_timeline_drag ⟨5, 10000, 0, 20000⟩ false
        ⟨true, false, false, some (500, 5), (0.05, 0)⟩ ⟨0, 0, 1000, 10⟩ = none ∧
    spec_pan_offset ⟨5, 10000, 0, 20000⟩ 0.05 ⟨0, 0, 1000, 10⟩ = 4 ∧
    (⟨5, 10000, 0, 20000⟩ : TimelineConfig).scroll_offset = 5 := by
  refine ⟨?_, ?_, rfl⟩
  · with_unfolding_all decide
  · with_unfolding_all decide

/-! ## C8: pixel-to-frame conversion for selection -/

/-- C8 (amended): the selection drag's `x_to_frame` equals
`clamp(scroll_offset + floor(max(x - area_left, 0) / frame_width), 0,
total_frames - 1)` — the pixel offset is clamped to 0 before the
division, so positions left of the area map to `scroll_offset` itself —
and it returns 0 when `total_frames = 0`. -/
theorem x_to_frame_semantics (cfg : TimelineConfig) (tlLeft frame_width x : ℚ)
    (hfw : 0 < frame_width) :
    selection_x_to_frame cfg tlLeft frame_width x =
      (max 0 (min ((cfg.total_frames : ℤ) - 1)
        ((cfg.scroll_offset : ℤ) + ⌊(max (x - tlLeft) 0) / frame_width⌋))).toNat ∧
    (cfg.total_frames = 0 → selection_x_to_frame cfg tlLeft frame_width x = 0) := by
  have hm : (0 : ℚ) ≤ max (x - tlLeft) 0 := le_max_right _ _
  have hq : (0 : ℚ) ≤ max (x - tlLeft) 0 / frame_width := div_nonneg hm hfw.le
  have hfl : 0 ≤ ⌊max (x - tlLeft) 0 / frame_width⌋ := Int.floor_nonneg.mpr hq
  constructor
  · unfold selection_x_to_frame ratToU64
    dsimp only []
    omega
  · intro h0
    unfold selection_x_to_frame
    rw [h0]
    simp

/-- Witness for C8 (amended): concrete evaluation with the pointer left
of the timeline area. -/
theorem x_to_frame_semantics_witness :
    selection_x_to_frame ⟨50, 100, 0, 1000⟩ 100 10 0 =
      (max 0 (min (((1000 : Nat) : ℤ) - 1)
        (((50 : Nat) : ℤ) + ⌊(max ((0 : ℚ) - 100) 0) / 10⌋))).toNat :=
  (x_to_frame_semantics ⟨50, 100, 0, 1000⟩ 100 10 0 (by norm_num)).1

/-- Counterexample to C8 as stated: with `scroll_offset = 50`,
`area_left = 100`, `frame_width = 10`, a pointer at `x = 0` maps to
frame 50 in the code (the negative pixel offset is clamped to 0 before
dividing), while the claimed formula yields
`clamp(50 + floor(-10), 0, 999) = 40`. -/
theorem x_to_frame_semantics_counterexample :
    selection_x_to_frame ⟨50, 100, 0, 1000⟩ 100 10 0 = 50 ∧
    spec_x_to_frame ⟨50, 100, 0, 1000⟩ 100 10 0 = 40 := by
  constructor
  · with_unfolding_all decide
  · with_unfolding_all decide

/-! ## C5: zoom anchor property -/

/-- C5: for every emitted `Zoom` action, when the scroll clamps do not
bite (the unclamped new offset is nonnegative and its truncation is at
most `total_frames - new_visible_frames`) and the pointer sits at or
right of the timeline's left edge, the frame under the pointer before
the zoom and after applying the action differ by less than one frame
(truncating the new offset to `u64` loses less than one frame). -/
theorem zoom_anchor (cfg : TimelineConfig) (pointer_pos : ℚ × ℚ) (scroll_delta : ℚ)
    (timeline_rect : Rect) (v o : Nat)
    (hres : handle_zoom cfg pointer_pos scroll_delta timeline_rect = some (.Zoom v o))
    (hpx : timeline_rect.left ≤ pointer_pos.1)
    (hraw : 0 ≤ zoom_raw_scroll cfg pointer_pos scroll_delta timeline_rect)
    (hclamp : ratToU64 (zoom_raw_scroll cfg pointer_pos scroll_delta timeline_rect) ≤
      cfg.total_frames - zoom_new_visible cfg.visible_frames scroll_delta) :
    |((cfg.scroll_offset : ℚ) +
        (pointer_pos.1 - timeline_rect.left) /
          frame_width_of timeline_rect cfg.visible_frames) -
      ((o : ℚ) +
        (pointer_pos.1 - timeline_rect.left) / frame_width_of timeline_rect v)| < 1 := by
  unfold handle_zoom at hres
  dsimp only [] at hres
  split at hres
  · exact absurd hres (by simp)
  · rw [Option.some_inj] at hres
    have hv : zoom_new_visible cfg.visible_frames scroll_delta = v := by
      cases hres; rfl
    have ho : o = min (ratToU64 (max (zoom_raw_scroll cfg pointer_pos scroll_delta
        timeline_rect) 0)) (cfg.total_frames -
          zoom_new_visible cfg.visible_frames scroll_delta) := by
      cases hres; rfl
    set raw := zoom_raw_scroll cfg pointer_pos scroll_delta timeline_rect with hrawdef
    rw [max_eq_left hraw, min_eq_left hclamp] at ho
    have hfl : 0 ≤ ⌊raw⌋ := Int.floor_nonneg.mpr hraw
    have hoq : (o : ℚ) = ((⌊raw⌋ : ℤ) : ℚ) := by
      rw [ho]
      unfold ratToU64
      exact_mod_cast congrArg (fun z : ℤ => (z : ℚ)) (Int.toNat_of_nonneg hfl)
    have hrexp : raw = ((cfg.scroll_offset : ℚ) +
        (pointer_pos.1 - timeline_rect.left) /
          frame_width_of timeline_rect cfg.visible_frames) -
        (pointer_pos.1 - timeline_rect.left) / frame_width_of timeline_rect v := by
      rw [hrawdef]
      unfold zoom_raw_scroll zoom_frame_under_mouse
      rw [max_eq_left (sub_nonneg.mpr hpx), hv]
    rw [abs_lt]
    constructor <;>
      linarith [hrexp, hoq, Int.floor_le raw, Int.lt_floor_add_one raw]

/-- Witness for C5: a concrete zoom-in at `visible_frames = 100`,
pointer over frame 100, yielding `Zoom {86, 57}`, where the anchored
frame moves by strictly less than one frame (here exactly 0). -/
theorem zoom_anchor_witness :
    |(((⟨50, 100, 0, 200⟩ : TimelineConfig).scroll_offset : ℚ) +
        ((((500 : ℚ), (5 : ℚ)) : ℚ × ℚ).1 - (⟨0, 0, 1000, 10⟩ : Rect).left) /
          frame_width_of ⟨0, 0, 1000, 10⟩
            (⟨50, 100, 0, 200⟩ : TimelineConfig).visible_frames) -
      (((57 : Nat) : ℚ) +
        ((((500 : ℚ), (5 : ℚ)) : ℚ × ℚ).1 - (⟨0, 0, 1000, 10⟩ : Rect).left) /
          frame_width_of ⟨0, 0, 1000, 10⟩ 86)| < 1 :=
  zoom_anchor ⟨50, 100, 0, 200⟩ (500, 5) 1 ⟨0, 0, 1000, 10⟩ 86 57
    (by with_unfolding_all decide) (by with_unfolding_all decide)
    (by with_unfolding_all decide) (by with_unfolding_all decide)
